import Mathlib

/-!
Shallow embedding of the task-agent orchestration code from
`python-agent/task_agent/orchestrator_executor.py` and
`python-agent/task_agent/agent_executor.py`.

Modelling conventions:
* Python objects produced by `json.loads` are modelled by the inductive `JValue`;
  `json.loads` itself is the Python standard library, so a message is carried
  around as its parse result `Option JValue` (`none` = the string is not valid
  JSON, so `json.loads` raises).
* Python dict access `d.get(k)` with last-duplicate-wins semantics is `jget`.
* Python truthiness (`if not x`) is the Boolean function `truthy`.
* `str.lower()` is `pyLower` (ASCII case mapping, which covers every keyword
  the code compares against).
* Network effects are passed in as function parameters: the HTTP layer of the
  webhook client is a function `PostRecord → HttpResult`, and the remote A2A
  agent call of `_call_a2a_agent` is a function `String → String → String`
  (url and message to returned text).  The OpenAI chat completion of
  `_generate_jobs_with_openai` (an external API call plus JSON extraction of
  its response) is a parameter `Except PyError (List JValue)`.
* Exceptions are explicit: a computation that can raise returns an `Except`
  value or an `Option PyError` component.
* Event queues and webhook traffic are modelled as the list of enqueued
  `Event`s and the list of performed `Action`s, in program order.
-/

/-- Parse result of `json.loads`: a JSON value as Python represents it. -/
inductive JValue where
  | null
  | bool (b : Bool)
  | num (n : Int)
  | str (s : String)
  | arr (elems : List JValue)
  | obj (fields : List (String × JValue))

/-- Python `dict.get` on a JSON object: the value of the last binding of the
key (later duplicate keys override earlier ones in `json.loads`), or `none`. -/
def jget (fields : List (String × JValue)) (k : String) : Option JValue :=
  ((fields.filter (fun f => f.1 == k)).getLast?).map (fun f => f.2)

/-- Python truthiness of a JSON value: `None`, `False`, `0`, `""`, `[]` and
`{}` are falsy, everything else is truthy. -/
def truthy : JValue → Bool
  | .null => false
  | .bool b => b
  | .num n => !(n == 0)
  | .str s => !s.isEmpty
  | .arr xs => !xs.isEmpty
  | .obj fs => !fs.isEmpty

/-- Truthiness of an optional value (`dict.get` returning `None` is falsy). -/
def truthyOpt : Option JValue → Bool
  | some v => truthy v
  | none => false

/-- Python `str.lower()` restricted to ASCII case mapping. -/
def pyLower (s : String) : String := String.mk (s.data.map Char.toLower)

/-- Python `any(keyword in s for keyword in kws)`: substring containment. -/
def containsAny (s : String) (kws : List String) : Bool :=
  kws.any (fun k => decide (List.IsInfix k.data s.data))

/-- The part of an incoming A2A message the Orchestrator inspects beyond its
text: the `configuration` dict (`none` when the attribute is absent/None). -/
structure Message where
  configuration : Option (List (String × JValue))

/-- The request context handed to `Orchestrator.execute`. -/
structure RequestContext where
  task_id : String
  context_id : String
  message : Option Message

/-- A Python exception, as far as the embedded code distinguishes them. -/
inductive PyError where
  | attributeError (name : String)
  | other (msg : String)
deriving DecidableEq

/-- An event enqueued on the A2A `EventQueue`.  Artifact parts built by
`_generate_task_data` contain fresh UUIDs and timestamps, so only their
count is recorded; the human-readable message of `new_agent_text_message`
is determined by the number of generated tasks. -/
inductive Event where
  | artifactUpdate (taskId contextId : String) (numParts : Nat) (final : Bool)
  | textMessage (numTasks : Nat)
  | statusUpdate (taskId contextId state : String) (final : Bool)
deriving DecidableEq

/-- An observable side effect of `_execute_jobs_async`: a webhook POST
(identified by the payload id, its status state and its artifact count) or a
dispatch of one task to `_execute_task_with_agent`. -/
inductive Act where
  | webhookPost (id contextId state : String) (numArtifacts : Nat)
  | agentCall (description assignedAgent : JValue)

/-- Outcome of one `httpx` POST: a response with a status code and body text,
or a raised exception. -/
inductive HttpResult where
  | response (status : Nat) (text : String)
  | exception (msg : String)

/-- The observable content of one webhook POST request. -/
structure PostRecord where
  url : String
  authorization : String
  contentType : String
  body : JValue

/-- The `task_data` dict passed to `_call_webhook`.  Every call site in the
source builds it with an `"id"` key present, a string `contextId` when one is
given, a `status` value and optionally an `artifacts` list. -/
structure TaskData where
  id : String
  contextId : Option String
  status : JValue
  artifacts : Option JValue

namespace Orchestrator

/-- Keyword group routed to the `trending` agent
(`orchestrator_executor.py:437`). -/
def trendingKeywords : List String := ["trend", "trending", "current", "popular", "viral"]

/-- Keyword group routed to the `market_analysis` agent
(`orchestrator_executor.py:439`). -/
def marketKeywords : List String := ["market", "stock", "financial", "investment", "trading"]

/-- Keyword group routed to the `analyzer` agent
(`orchestrator_executor.py:441`). -/
def analyzeKeywords : List String := ["analyze", "analysis", "research", "study"]

/-- `self.available_agents` from `Orchestrator.__init__`
(`orchestrator_executor.py:61`-66): the `market_analysis` entry is commented
out in the source. -/
def available_agents : List (String × String) :=
  [("trending", "http://localhost:10020"),
   ("analyzer", "http://localhost:10021"),
   ("host", "http://localhost:10022")]

/-- `Orchestrator._determine_best_agent` (`orchestrator_executor.py:432`-444).
The `assigned_agent` parameter is accepted and ignored, as in the source. -/
def determine_best_agent (task_description : String) (assigned_agent : JValue) : String :=
  let task_lower := pyLower task_description
  if containsAny task_lower trendingKeywords then "trending"
  else if containsAny task_lower marketKeywords then "market_analysis"
  else if containsAny task_lower analyzeKeywords then "analyzer"
  else "host"

/-- `Orchestrator._execute_task_with_agent` (`orchestrator_executor.py:338`-355).
The network interaction of `_call_a2a_agent` is the parameter `a2aResult`
(that function catches all its exceptions and returns text, so it is total). -/
def execute_task_with_agent (a2aResult : String → String → String)
    (task_description : String) (assigned_agent : JValue) : String :=
  let agent_name := determine_best_agent task_description assigned_agent
  match available_agents.lookup agent_name with
  | none => "Agent " ++ agent_name ++ " not available. Task description: " ++ task_description
  | some agent_url => a2aResult agent_url task_description

/-- `Orchestrator._is_job_execution_request` (`orchestrator_executor.py:585`-591):
`json.loads` the message, then `data.get("type") == "execute_jobs"`; any
exception (invalid JSON, or a parse result without `.get`, i.e. not a dict)
yields `False`. -/
def is_job_execution_request (parsed : Option JValue) : Bool :=
  match parsed with
  | some (.obj fs) =>
      match jget fs "type" with
      | some (.str t) => t == "execute_jobs"
      | _ => false
  | _ => false

/-- `Orchestrator._is_blocking_request` (`orchestrator_executor.py:593`-601):
if the message has a truthy (hence non-empty) `configuration` dict, return
the truthiness of `configuration.get('blocking', False)`; otherwise default
to `True`. -/
def is_blocking_request (message : Option Message) : Bool :=
  match message with
  | some m =>
      match m.configuration with
      | some cfg =>
          if cfg.isEmpty then true
          else
            match jget cfg "blocking" with
            | some v => truthy v
            | none => false
      | none => true
  | none => true

/-- The attribute names defined on the `Orchestrator` class: its class body
(`orchestrator_executor.py:26`-606) plus the instance attributes assigned in
`__init__` plus the two methods declared by the external a2a base class
`AgentExecutor` (`execute` and `cancel`). -/
def classAttrs : List String :=
  ["SYSTEM_INSTRUCTION", "__init__", "job_counter", "agent_counter", "tasks_store",
   "webhook_base_url", "openai_client", "available_agents", "_agent_info_cache",
   "default_timeout", "execute", "_generate_task_data", "_generate_tasks_response",
   "_generate_tasks_blocking", "_execute_jobs_async", "_execute_task_with_agent",
   "_call_a2a_agent", "_determine_best_agent", "_generate_jobs_with_openai",
   "cancel", "_call_webhook", "_extract_user_message", "_is_job_execution_request",
   "_is_blocking_request", "_next_agent_id"]

/-- `Orchestrator._generate_jobs_with_openai` (`orchestrator_executor.py:446`-523).
When `self.openai_client` is `None` the code calls
`self._generate_jobs_fallback(user_message)`; that name is not in
`classAttrs`, so Python attribute lookup raises `AttributeError`.  When a
client exists, the chat-completion call and the JSON extraction of its
response are external and are passed in as `openaiOutcome`. -/
def generate_jobs_with_openai (hasClient : Bool)
    (openaiOutcome : Except PyError (List JValue)) : Except PyError (List JValue) :=
  if !hasClient then Except.error (PyError.attributeError "_generate_jobs_fallback")
  else openaiOutcome

/-- Webhook configuration extraction at the top of `_execute_jobs_async`
(`orchestrator_executor.py:248`-251): `context.message.configuration.get('pushNotificationConfig')`
guarded by truthiness of the message and of the configuration dict. -/
def webhookConfigOf (message : Option Message) : Option JValue :=
  match message with
  | some m =>
      match m.configuration with
      | some cfg => if cfg.isEmpty then none else jget cfg "pushNotificationConfig"
      | none => none
  | none => none

/-- The guard block of `_execute_jobs_async` (`orchestrator_executor.py:253`-262):
`ok none` is the early `return` (no config, falsy config, or falsy
url/token), `ok (some (url, token))` continues, and `error` is the
`AttributeError` of calling `.get` on a truthy non-dict value. -/
def webhookGate (message : Option Message) : Except PyError (Option (JValue × JValue)) :=
  match webhookConfigOf message with
  | none => Except.ok none
  | some wc =>
      if !(truthy wc) then Except.ok none
      else
        match wc with
        | .obj wcf =>
            let url := jget wcf "url"
            let token := jget wcf "token"
            if !(truthyOpt url) || !(truthyOpt token) then Except.ok none
            else Except.ok (some (url.getD JValue.null, token.getD JValue.null))
        | _ => Except.error (PyError.attributeError "get")

/-- The `tasks` value of the job-execution payload
(`orchestrator_executor.py:277`-282): `json.loads(user_message)` then
`job_data.get("tasks", [])`, with any exception in that `try` replaced by
the empty list. -/
def tasksValue (parsed : Option JValue) : JValue :=
  match parsed with
  | some (.obj fs) => (jget fs "tasks").getD (JValue.arr [])
  | _ => JValue.arr []

/-- Iterating `for i, task in enumerate(tasks)` over the `tasks` value: a list
iterates its elements, a dict its keys, a string its characters, and anything
else raises `TypeError`. -/
def iterTasks : JValue → Except PyError (List JValue)
  | .arr xs => Except.ok xs
  | .obj fs => Except.ok (fs.map (fun f => JValue.str f.1))
  | .str s => Except.ok (s.data.map (fun c => JValue.str (String.mk [c])))
  | _ => Except.error (PyError.other "TypeError: object is not iterable")

/-- The per-job webhook id `f"{task_id}-job-{i}"`. -/
def jobId (task_id : String) (i : Nat) : String := task_id ++ "-job-" ++ toString i

/-- The task loop of `_execute_jobs_async` (`orchestrator_executor.py:285`-319).
Each dict task yields, in order: the job-start webhook, the dispatch of the
task to `_execute_task_with_agent`, and the job-completion webhook (carrying
one artifact).  Field extraction happens before the job-start webhook, so a
non-dict task raises `AttributeError` before producing any action; the raised
error propagates past the remaining tasks while the actions of the earlier
tasks stand. -/
def jobLoop (task_id context_id : String) : Nat → List JValue → List Act × Option PyError
  | _, [] => ([], none)
  | i, JValue.obj fs :: rest =>
      ([Act.webhookPost (jobId task_id i) context_id "working" 0,
        Act.agentCall ((jget fs "description").getD (JValue.str ""))
          ((jget fs "assignedAgent").getD (JValue.obj [])),
        Act.webhookPost (jobId task_id i) context_id "completed" 1]
        ++ (jobLoop task_id context_id (i + 1) rest).1,
       (jobLoop task_id context_id (i + 1) rest).2)
  | _, _ :: _ => ([], some (PyError.attributeError "get"))

/-- `Orchestrator._execute_jobs_async` (`orchestrator_executor.py:241`-336):
the performed actions in order, and the exception it re-raises, if any.
After the gate passes, the initial whole-task `working` webhook fires, then
the task loop runs, then the final whole-task `completed` webhook fires. -/
def execute_jobs_async (context : RequestContext) (parsed : Option JValue) :
    List Act × Option PyError :=
  match webhookGate context.message with
  | .error e => ([], some e)
  | .ok none => ([], none)
  | .ok (some _) =>
      match iterTasks (tasksValue parsed) with
      | .error e => ([Act.webhookPost context.task_id context.context_id "working" 0], some e)
      | .ok ts =>
          match (jobLoop context.task_id context.context_id 0 ts).2 with
          | some e =>
              (Act.webhookPost context.task_id context.context_id "working" 0 ::
                (jobLoop context.task_id context.context_id 0 ts).1, some e)
          | none =>
              (Act.webhookPost context.task_id context.context_id "working" 0 ::
                ((jobLoop context.task_id context.context_id 0 ts).1 ++
                  [Act.webhookPost context.task_id context.context_id "completed" 0]), none)

/-- The two dispatch modes of `Orchestrator.execute`. -/
inductive ExecMode where
  | jobExecution
  | taskGeneration
deriving DecidableEq

/-- The branch taken at `orchestrator_executor.py:88`. -/
def executeMode (parsed : Option JValue) : ExecMode :=
  if is_job_execution_request parsed then ExecMode.jobExecution else ExecMode.taskGeneration

/-- The observable behaviour of one `Orchestrator.execute` call: the events
enqueued on the A2A event queue and the actions performed on the way. -/
structure ExecOut where
  events : List Event
  actions : List Act

/-- `Orchestrator.execute` (`orchestrator_executor.py:71`-118): the events it
enqueues and the webhook/agent actions it performs.  The job-execution branch
runs `_execute_jobs_async` and then enqueues a final `completed` status; the
task-generation branch runs `_generate_tasks_blocking` or
`_generate_tasks_response` (`orchestrator_executor.py:144`-239) according to
`_is_blocking_request`.  Any exception is caught by the outer handler, which
enqueues a final `failed` status (`orchestrator_executor.py:110`-118); on the
blocking path the inner handler has already enqueued a `failed` status of its
own before re-raising (`orchestrator_executor.py:227`-239). -/
def execute (context : RequestContext) (parsed : Option JValue) (hasClient : Bool)
    (openaiOutcome : Except PyError (List JValue)) : ExecOut :=
  match executeMode parsed with
  | ExecMode.jobExecution =>
      match (execute_jobs_async context parsed).2 with
      | none =>
          { events := [Event.statusUpdate context.task_id context.context_id "completed" true],
            actions := (execute_jobs_async context parsed).1 }
      | some _ =>
          { events := [Event.statusUpdate context.task_id context.context_id "failed" true],
            actions := (execute_jobs_async context parsed).1 }
  | ExecMode.taskGeneration =>
      if is_blocking_request context.message then
        match generate_jobs_with_openai hasClient openaiOutcome with
        | .ok jobs =>
            { events := [Event.artifactUpdate context.task_id context.context_id jobs.length true],
              actions := [] }
        | .error _ =>
            { events := [Event.statusUpdate context.task_id context.context_id "failed" true,
                         Event.statusUpdate context.task_id context.context_id "failed" true],
              actions := [] }
      else
        match generate_jobs_with_openai hasClient openaiOutcome with
        | .ok jobs =>
            { events := [Event.artifactUpdate context.task_id context.context_id jobs.length false,
                         Event.textMessage jobs.length,
                         Event.statusUpdate context.task_id context.context_id "completed" true],
              actions := [] }
        | .error _ =>
            { events := [Event.statusUpdate context.task_id context.context_id "failed" true],
              actions := [] }

/-- The webhook payload built by `Orchestrator._call_webhook`
(`orchestrator_executor.py:533`-539). -/
def webhookPayload (td : TaskData) : JValue :=
  JValue.obj
    [("id", JValue.str td.id),
     ("contextId", JValue.str (td.contextId.getD "default")),
     ("kind", JValue.str "task"),
     ("status", td.status),
     ("artifacts", td.artifacts.getD (JValue.arr []))]

/-- The POST request issued by `Orchestrator._call_webhook`
(`orchestrator_executor.py:541`-550). -/
def webhookRequest (url token : String) (td : TaskData) : PostRecord :=
  { url := url
    authorization := "Bearer " ++ token
    contentType := "application/json"
    body := webhookPayload td }

/-- `Orchestrator._call_webhook` (`orchestrator_executor.py:530`-561): one
synchronous POST through the network `net`, returning `True` exactly on
status 204 and `False` on any other status or on an exception.  The list
records the POST attempts made. -/
def call_webhook (net : PostRecord → HttpResult) (url token : String) (td : TaskData) :
    Bool × List PostRecord :=
  match net (webhookRequest url token td) with
  | HttpResult.response status _ => (status == 204, [webhookRequest url token td])
  | HttpResult.exception _ => (false, [webhookRequest url token td])

end Orchestrator

namespace TaskAgentExecutor

/-- The mutable counters of `TaskAgentExecutor` (`agent_executor.py`):
`self.job_counter` and `self.agent_counter`. -/
structure ExecState where
  job_counter : Nat
  agent_counter : Nat
deriving DecidableEq

/-- `TaskAgentExecutor._next_job_id` (`agent_executor.py:1299`-1302):
increments `self.job_counter` and returns it. -/
def next_job_id (s : ExecState) : Nat × ExecState :=
  (s.job_counter + 1, ⟨s.job_counter + 1, s.agent_counter⟩)

/-- `TaskAgentExecutor._next_agent_id` (`agent_executor.py:1304`-1307):
increments `self.agent_counter` and returns it. -/
def next_agent_id (s : ExecState) : Nat × ExecState :=
  (s.agent_counter + 1, ⟨s.job_counter, s.agent_counter + 1⟩)

/-- The `assignedAgent` dict of a generated job. -/
structure AgentInfo where
  id : String
  name : String
  description : String
  capabilities : List String
  pricingUsdt : Rat
  walletAddress : String
  rating : Rat
  completedTasks : Nat
deriving DecidableEq

/-- One job dict produced by a task template generator. -/
structure JobSpec where
  id : String
  title : String
  description : String
  status : String
  assignedAgent : AgentInfo
deriving DecidableEq

/-- `TaskAgentExecutor._create_web_project_jobs` (`agent_executor.py:871`-938),
with the `f"job-{self._next_job_id()}"` and `f"agent-{self._next_agent_id()}"`
calls threaded through the counter state in Python evaluation order. -/
def create_web_project_jobs (s : ExecState) (user_message : String) :
    List JobSpec × ExecState :=
  let r1 := next_job_id s
  let a1 := next_agent_id r1.2
  let r2 := next_job_id a1.2
  let a2 := next_agent_id r2.2
  let r3 := next_job_id a2.2
  let a3 := next_agent_id r3.2
  let r4 := next_job_id a3.2
  let a4 := next_agent_id r4.2
  ([{ id := "job-" ++ toString r1.1
      title := "Frontend Development & UI Design"
      description := "Create responsive user interface for: " ++ user_message ++
        ". Implement modern React/Next.js components with TypeScript, responsive design, and accessibility features."
      status := "submitted"
      assignedAgent :=
        { id := "agent-" ++ toString a1.1
          name := "Frontend Specialist"
          description := "Expert in React, TypeScript, and modern frontend development"
          capabilities := ["React", "Next.js", "TypeScript", "Tailwind CSS", "UI/UX Design"]
          pricingUsdt := 2.5
          walletAddress := "0x742d35cc6565c1c6e9e9f8e8d8f5c4b3a2f1e0d9"
          rating := 4.8
          completedTasks := 156 } },
    { id := "job-" ++ toString r2.1
      title := "Backend API & Authentication"
      description := "Build secure REST API for: " ++ user_message ++
        ". Implement authentication, authorization, data validation, and API documentation."
      status := "submitted"
      assignedAgent :=
        { id := "agent-" ++ toString a2.1
          name := "Backend Engineer"
          description := "Specialized in Node.js, APIs, and server architecture"
          capabilities := ["Node.js", "Express", "PostgreSQL", "JWT", "REST APIs"]
          pricingUsdt := 3.0
          walletAddress := "0x851e46ec6695d2c7f0f0a9a9e9f8c5d4c3b2a1f0"
          rating := 4.9
          completedTasks := 203 } },
    { id := "job-" ++ toString r3.1
      title := "Database Architecture & Optimization"
      description := "Design scalable database schema for: " ++ user_message ++
        ". Create optimized tables, indexes, relationships, and implement data migration strategies."
      status := "submitted"
      assignedAgent :=
        { id := "agent-" ++ toString a3.1
          name := "Database Architect"
          description := "Expert in database design, optimization, and performance tuning"
          capabilities := ["PostgreSQL", "Schema Design", "Query Optimization", "Data Modeling"]
          pricingUsdt := 2.8
          walletAddress := "0xa1b2c3d4e5f6789012345678901234567890abcd"
          rating := 4.7
          completedTasks := 89 } },
    { id := "job-" ++ toString r4.1
      title := "Testing & Quality Assurance"
      description := "Implement comprehensive testing suite for: " ++ user_message ++
        ". Create unit tests, integration tests, E2E tests, and performance monitoring."
      status := "submitted"
      assignedAgent :=
        { id := "agent-" ++ toString a4.1
          name := "QA Engineer"
          description := "Specialized in test automation and quality assurance"
          capabilities := ["Jest", "Cypress", "Playwright", "Test Automation", "Performance Testing"]
          pricingUsdt := 2.2
          walletAddress := "0xdef456789abcdef456789abcdef456789abcdef4"
          rating := 4.6
          completedTasks := 134 } }],
   a4.2)

/-- A job with its generated id fields erased, isolating the part of the
output that does not come from the counters. -/
def eraseIds (j : JobSpec) : JobSpec :=
  { j with id := "", assignedAgent := { j.assignedAgent with id := "" } }

/-- The webhook payload built by `TaskAgentExecutor._call_webhook`
(`agent_executor.py:392`-402): as the Orchestrator one, plus a `documentId`
entry when a truthy (non-empty) document id is supplied. -/
def webhookPayload (td : TaskData) (document_id : Option String) : JValue :=
  let base :=
    [("id", JValue.str td.id),
     ("contextId", JValue.str (td.contextId.getD "default")),
     ("kind", JValue.str "task"),
     ("status", td.status),
     ("artifacts", td.artifacts.getD (JValue.arr []))]
  match document_id with
  | some d => if d.isEmpty then JValue.obj base else JValue.obj (base ++ [("documentId", JValue.str d)])
  | none => JValue.obj base

/-- The POST request issued by `TaskAgentExecutor._call_webhook`
(`agent_executor.py:404`-413). -/
def webhookRequest (url token : String) (td : TaskData) (document_id : Option String) : PostRecord :=
  { url := url
    authorization := "Bearer " ++ token
    contentType := "application/json"
    body := webhookPayload td document_id }

/-- `TaskAgentExecutor._call_webhook` (`agent_executor.py:389`-424): identical
to the Orchestrator webhook client up to the optional `documentId`. -/
def call_webhook (net : PostRecord → HttpResult) (url token : String) (td : TaskData)
    (document_id : Option String) : Bool × List PostRecord :=
  match net (webhookRequest url token td document_id) with
  | HttpResult.response status _ => (status == 204, [webhookRequest url token td document_id])
  | HttpResult.exception _ => (false, [webhookRequest url token td document_id])

end TaskAgentExecutor

/-- The configuration dict reachable from a request message, used to state
classification properties. -/
def cfgOf : Option Message → Option (List (String × JValue))
  | some m => m.configuration
  | none => none

/-- C1: `Orchestrator.execute` dispatches to the job-execution branch exactly
when the extracted user message parses as a JSON object whose `"type"` field
is the string `"execute_jobs"`; every other message (invalid JSON, a non-object
parse, a missing or different `"type"`) takes the task-generation branch. -/
theorem execute_dispatch_iff (parsed : Option JValue) :
    (Orchestrator.executeMode parsed = Orchestrator.ExecMode.jobExecution ↔
      ∃ fs, parsed = some (JValue.obj fs) ∧ jget fs "type" = some (JValue.str "execute_jobs")) ∧
    (Orchestrator.executeMode parsed = Orchestrator.ExecMode.taskGeneration ↔
      ¬∃ fs, parsed = some (JValue.obj fs) ∧ jget fs "type" = some (JValue.str "execute_jobs")) := by
  have h : Orchestrator.is_job_execution_request parsed = true ↔
      ∃ fs, parsed = some (JValue.obj fs) ∧ jget fs "type" = some (JValue.str "execute_jobs") := by
    cases parsed with
    | none => simp [Orchestrator.is_job_execution_request]
    | some v =>
      cases v with
      | null => simp [Orchestrator.is_job_execution_request]
      | bool b => simp [Orchestrator.is_job_execution_request]
      | num n => simp [Orchestrator.is_job_execution_request]
      | str s => simp [Orchestrator.is_job_execution_request]
      | arr xs => simp [Orchestrator.is_job_execution_request]
      | obj fs =>
        cases htype : jget fs "type" with
        | none => simp [Orchestrator.is_job_execution_request, htype]
        | some w => cases w <;> simp [Orchestrator.is_job_execution_request, htype]
  cases hb : Orchestrator.is_job_execution_request parsed with
  | false =>
      rw [hb] at h
      have hnot : ¬∃ fs, parsed = some (JValue.obj fs) ∧
          jget fs "type" = some (JValue.str "execute_jobs") := fun hex => by simpa using h.mpr hex
      exact ⟨iff_of_false (by simp [Orchestrator.executeMode, hb]) hnot,
             iff_of_true (by simp [Orchestrator.executeMode, hb]) hnot⟩
  | true =>
      rw [hb] at h
      have hyes := h.mp rfl
      exact ⟨iff_of_true (by simp [Orchestrator.executeMode, hb]) hyes,
             iff_of_false (by simp [Orchestrator.executeMode, hb]) (not_not_intro hyes)⟩

/-- C2: agent routing lowercases the description and tests the keyword groups
in fixed priority order (trending, then market, then analyze), defaulting to
`"host"`; it is total and always returns one of the four agent names. -/
theorem determine_best_agent_priority (task_description : String) (assigned_agent : JValue) :
    (Orchestrator.determine_best_agent task_description assigned_agent = "trending" ↔
       containsAny (pyLower task_description) Orchestrator.trendingKeywords = true) ∧
    (Orchestrator.determine_best_agent task_description assigned_agent = "market_analysis" ↔
       (containsAny (pyLower task_description) Orchestrator.trendingKeywords = false ∧
        containsAny (pyLower task_description) Orchestrator.marketKeywords = true)) ∧
    (Orchestrator.determine_best_agent task_description assigned_agent = "analyzer" ↔
       (containsAny (pyLower task_description) Orchestrator.trendingKeywords = false ∧
        containsAny (pyLower task_description) Orchestrator.marketKeywords = false ∧
        containsAny (pyLower task_description) Orchestrator.analyzeKeywords = true)) ∧
    (Orchestrator.determine_best_agent task_description assigned_agent = "host" ↔
       (containsAny (pyLower task_description) Orchestrator.trendingKeywords = false ∧
        containsAny (pyLower task_description) Orchestrator.marketKeywords = false ∧
        containsAny (pyLower task_description) Orchestrator.analyzeKeywords = false)) ∧
    (Orchestrator.determine_best_agent task_description assigned_agent = "trending" ∨
     Orchestrator.determine_best_agent task_description assigned_agent = "market_analysis" ∨
     Orchestrator.determine_best_agent task_description assigned_agent = "analyzer" ∨
     Orchestrator.determine_best_agent task_description assigned_agent = "host") := by
  cases h1 : containsAny (pyLower task_description) Orchestrator.trendingKeywords <;>
    cases h2 : containsAny (pyLower task_description) Orchestrator.marketKeywords <;>
      cases h3 : containsAny (pyLower task_description) Orchestrator.analyzeKeywords <;>
        simp [Orchestrator.determine_best_agent, h1, h2, h3]

/-- C4: each webhook client performs exactly one POST carrying an
`Authorization: Bearer <token>` header, returns `True` exactly when the
response status is 204, and returns `False` on any other status or on an
exception; it is a total function (no exception escapes) and never retries
(the list of POST attempts is a singleton). -/
theorem call_webhook_single_post_bearer_204 (net : PostRecord → HttpResult)
    (url token : String) (td : TaskData) (document_id : Option String) :
    ((Orchestrator.call_webhook net url token td).2 = [Orchestrator.webhookRequest url token td] ∧
     (Orchestrator.webhookRequest url token td).authorization = "Bearer " ++ token ∧
     ((Orchestrator.call_webhook net url token td).1 = true ↔
        ∃ text, net (Orchestrator.webhookRequest url token td) = HttpResult.response 204 text)) ∧
    ((TaskAgentExecutor.call_webhook net url token td document_id).2 =
        [TaskAgentExecutor.webhookRequest url token td document_id] ∧
     (TaskAgentExecutor.webhookRequest url token td document_id).authorization = "Bearer " ++ token ∧
     ((TaskAgentExecutor.call_webhook net url token td document_id).1 = true ↔
        ∃ text, net (TaskAgentExecutor.webhookRequest url token td document_id) =
          HttpResult.response 204 text)) := by
  constructor
  · refine ⟨?_, rfl, ?_⟩
    · cases hnet : net (Orchestrator.webhookRequest url token td) <;>
        simp [Orchestrator.call_webhook, hnet]
    · cases hnet : net (Orchestrator.webhookRequest url token td) with
      | response status text => simp [Orchestrator.call_webhook, hnet]
      | exception msg => simp [Orchestrator.call_webhook, hnet]
  · refine ⟨?_, rfl, ?_⟩
    · cases hnet : net (TaskAgentExecutor.webhookRequest url token td document_id) <;>
        simp [TaskAgentExecutor.call_webhook, hnet]
    · cases hnet : net (TaskAgentExecutor.webhookRequest url token td document_id) with
      | response status text => simp [TaskAgentExecutor.call_webhook, hnet]
      | exception msg => simp [TaskAgentExecutor.call_webhook, hnet]

/-- C3 counterexample: a message whose configuration dict is non-empty but has
no `'blocking'` key.  The claim says such a request "defaults to blocking";
the code returns the `.get` default `False`, classifying it non-blocking. -/
theorem is_blocking_missing_key_counterexample :
    Orchestrator.is_blocking_request
      (some ⟨some [("pushNotificationConfig", JValue.obj [("url", JValue.str "http://w")])]⟩)
      = false := rfl

/-- C3 (amended): a request is blocking iff its message or configuration is
absent, its configuration dict is empty, or the configuration holds a truthy
`'blocking'` value - a non-empty configuration without a `'blocking'` key is
non-blocking; a blocking task-generation request is answered with a single
final `TaskArtifactUpdateEvent`, while a non-blocking one gets a non-final
artifact event, a text message, and a final `completed` status event. -/
theorem blocking_classification_and_responses (ctx : RequestContext)
    (parsed : Option JValue) (hasClient : Bool) (oo : Except PyError (List JValue))
    (jobs : List JValue)
    (hmode : Orchestrator.is_job_execution_request parsed = false)
    (hgen : Orchestrator.generate_jobs_with_openai hasClient oo = Except.ok jobs) :
    (Orchestrator.is_blocking_request ctx.message = true ↔
       (cfgOf ctx.message = none ∨ cfgOf ctx.message = some [] ∨
        ∃ cfg v, cfgOf ctx.message = some cfg ∧ jget cfg "blocking" = some v ∧
          truthy v = true)) ∧
    (Orchestrator.is_blocking_request ctx.message = true →
       (Orchestrator.execute ctx parsed hasClient oo).events =
         [Event.artifactUpdate ctx.task_id ctx.context_id jobs.length true]) ∧
    (Orchestrator.is_blocking_request ctx.message = false →
       (Orchestrator.execute ctx parsed hasClient oo).events =
         [Event.artifactUpdate ctx.task_id ctx.context_id jobs.length false,
          Event.textMessage jobs.length,
          Event.statusUpdate ctx.task_id ctx.context_id "completed" true]) := by
  refine ⟨?_, ?_, ?_⟩
  · cases hmsg : ctx.message with
    | none => simp [Orchestrator.is_blocking_request, cfgOf]
    | some m =>
      cases hcfg : m.configuration with
      | none => simp [Orchestrator.is_blocking_request, cfgOf, hcfg]
      | some cfg =>
        cases cfg with
        | nil => simp [Orchestrator.is_blocking_request, cfgOf, hcfg]
        | cons hd tl =>
          cases hv : jget (hd :: tl) "blocking" with
          | none => simp [Orchestrator.is_blocking_request, cfgOf, hcfg, hv]
          | some v => simp [Orchestrator.is_blocking_request, cfgOf, hcfg, hv]
  · intro hb
    simp [Orchestrator.execute, Orchestrator.executeMode, hmode, hb, hgen]
  · intro hb
    simp [Orchestrator.execute, Orchestrator.executeMode, hmode, hb, hgen]

/-- C3 witness: the amended theorem applied to a concrete non-blocking request
(configuration with a falsy `blocking` value) and a concrete blocking one. -/
theorem blocking_classification_and_responses_witness :
    Orchestrator.is_job_execution_request (none : Option JValue) = false ∧
    Orchestrator.generate_jobs_with_openai true (Except.ok [JValue.obj []]) =
      Except.ok [JValue.obj []] ∧
    (Orchestrator.is_blocking_request (none : Option Message) = true →
      (Orchestrator.execute ⟨"t1", "c1", none⟩ none true (Except.ok [JValue.obj []])).events =
        [Event.artifactUpdate "t1" "c1" 1 true]) ∧
    (Orchestrator.is_blocking_request
        (some ⟨some [("blocking", JValue.bool false)]⟩) = false →
      (Orchestrator.execute ⟨"t2", "c2", some ⟨some [("blocking", JValue.bool false)]⟩⟩
          none true (Except.ok [JValue.obj []])).events =
        [Event.artifactUpdate "t2" "c2" 1 false, Event.textMessage 1,
         Event.statusUpdate "t2" "c2" "completed" true]) :=
  ⟨rfl, rfl,
   (blocking_classification_and_responses ⟨"t1", "c1", none⟩ none true
      (Except.ok [JValue.obj []]) [JValue.obj []] rfl rfl).2.1,
   (blocking_classification_and_responses ⟨"t2", "c2", some ⟨some [("blocking", JValue.bool false)]⟩⟩
      none true (Except.ok [JValue.obj []]) [JValue.obj []] rfl rfl).2.2⟩

/-- C5: when processing inside `execute` raises (the modelled failure sources:
a task-generation error, or an exception re-raised by `_execute_jobs_async`),
the only handling is to enqueue `TaskStatusUpdateEvent`s with state `failed`
and `final=True` for the current task and context - at least one, nothing
else, no retry; `execute` is a total function, so the exception never
propagates to its caller. -/
theorem execute_failure_logs_and_reports_failed (ctx : RequestContext)
    (parsed : Option JValue) (hasClient : Bool) (oo : Except PyError (List JValue))
    (e : PyError) :
    (Orchestrator.executeMode parsed = Orchestrator.ExecMode.taskGeneration →
      Orchestrator.generate_jobs_with_openai hasClient oo = Except.error e →
      ((Orchestrator.execute ctx parsed hasClient oo).events ≠ [] ∧
       (∀ ev ∈ (Orchestrator.execute ctx parsed hasClient oo).events,
          ev = Event.statusUpdate ctx.task_id ctx.context_id "failed" true) ∧
       (Orchestrator.execute ctx parsed hasClient oo).actions = [])) ∧
    (Orchestrator.executeMode parsed = Orchestrator.ExecMode.jobExecution →
      (Orchestrator.execute_jobs_async ctx parsed).2 = some e →
      (Orchestrator.execute ctx parsed hasClient oo).events =
        [Event.statusUpdate ctx.task_id ctx.context_id "failed" true]) := by
  constructor
  · intro hmode hgen
    cases hb : Orchestrator.is_blocking_request ctx.message <;>
      simp [Orchestrator.execute, hmode, hb, hgen]
  · intro hmode herr
    simp [Orchestrator.execute, hmode, herr]

/-- C5 witness: a failing task generation (no OpenAI client) on a concrete
request yields only `failed`/final status events. -/
theorem execute_failure_logs_and_reports_failed_witness :
    Orchestrator.executeMode none = Orchestrator.ExecMode.taskGeneration ∧
    Orchestrator.generate_jobs_with_openai false (Except.ok []) =
      Except.error (PyError.attributeError "_generate_jobs_fallback") ∧
    ((Orchestrator.execute ⟨"t1", "c1", none⟩ none false (Except.ok [])).events ≠ [] ∧
     (∀ ev ∈ (Orchestrator.execute ⟨"t1", "c1", none⟩ none false (Except.ok [])).events,
        ev = Event.statusUpdate "t1" "c1" "failed" true) ∧
     (Orchestrator.execute ⟨"t1", "c1", none⟩ none false (Except.ok [])).actions = []) :=
  ⟨rfl, rfl,
   (execute_failure_logs_and_reports_failed ⟨"t1", "c1", none⟩ none false (Except.ok [])
      (PyError.attributeError "_generate_jobs_fallback")).1 rfl rfl⟩

/-- Structure of the task loop of `_execute_jobs_async` on a list of dict
tasks: no exception, exactly three actions per task in order (job-start
webhook, agent dispatch, job-completion webhook) at consecutive positions. -/
theorem jobLoop_spec (task_id context_id : String) (ts : List JValue) :
    ∀ (i : Nat), (∀ x ∈ ts, ∃ fs, x = JValue.obj fs) →
      (Orchestrator.jobLoop task_id context_id i ts).2 = none ∧
      (Orchestrator.jobLoop task_id context_id i ts).1.length = 3 * ts.length ∧
      ∀ j, j < ts.length → ∃ fs, ts[j]? = some (JValue.obj fs) ∧
        (Orchestrator.jobLoop task_id context_id i ts).1[3*j]? =
          some (Act.webhookPost (Orchestrator.jobId task_id (i+j)) context_id "working" 0) ∧
        (Orchestrator.jobLoop task_id context_id i ts).1[3*j+1]? =
          some (Act.agentCall ((jget fs "description").getD (JValue.str ""))
            ((jget fs "assignedAgent").getD (JValue.obj []))) ∧
        (Orchestrator.jobLoop task_id context_id i ts).1[3*j+2]? =
          some (Act.webhookPost (Orchestrator.jobId task_id (i+j)) context_id "completed" 1) := by
  induction ts with
  | nil =>
      intro i _
      refine ⟨rfl, rfl, ?_⟩
      intro j hj
      simp at hj
  | cons hd tl ih =>
      intro i hobj
      obtain ⟨fs, rfl⟩ := hobj hd (by simp)
      obtain ⟨ih1, ih2, ih3⟩ := ih (i+1) (fun x hx => hobj x (by simp [hx]))
      refine ⟨?_, ?_, ?_⟩
      · simpa [Orchestrator.jobLoop] using ih1
      · simp only [Orchestrator.jobLoop, List.cons_append, List.length_cons, List.length_append,
          List.length_nil, ih2, List.length_append]
        simp [ih2]
        omega
      · intro j hj
        cases j with
        | zero =>
            refine ⟨fs, by simp, ?_, ?_, ?_⟩ <;> simp [Orchestrator.jobLoop]
        | succ j' =>
            have hj' : j' < tl.length := by simpa using Nat.lt_of_succ_lt_succ hj
            obtain ⟨fs', heq, h0, h1, h2⟩ := ih3 j' hj'
            have e0 : 3 * (j' + 1) = (3 * j' + 2) + 1 := by omega
            have e1 : 3 * (j' + 1) + 1 = ((3 * j' + 2) + 1) + 1 := by omega
            have e2 : 3 * (j' + 1) + 2 = (((3 * j' + 2) + 1) + 1) + 1 := by omega
            have eidx : i + (j' + 1) = (i + 1) + j' := by omega
            refine ⟨fs', by simpa using heq, ?_, ?_, ?_⟩
            · rw [e0, eidx]
              simpa [Orchestrator.jobLoop] using h0
            · rw [e1]
              simpa [Orchestrator.jobLoop] using h1
            · rw [e2, eidx]
              simpa [Orchestrator.jobLoop] using h2

/-- C6: a job-execution request whose message parses to a list of dict tasks
runs them strictly sequentially in list order.  With the initial whole-task
webhook at position 0, task `j` occupies positions `3j+1` (working webhook
for id `"<task_id>-job-<j>"`), `3j+2` (awaiting that task's agent call) and
`3j+3` (that job's completed webhook) - so job `j`'s completion precedes job
`j+1`'s start - and the whole-task `completed` webhook is the last action,
at position `3n+1`, after every per-job webhook. -/
theorem execute_jobs_sequential_order (ctx : RequestContext) (parsed : Option JValue)
    (u t : JValue) (ts : List JValue)
    (hgate : Orchestrator.webhookGate ctx.message = Except.ok (some (u, t)))
    (htasks : Orchestrator.tasksValue parsed = JValue.arr ts)
    (hobj : ∀ x ∈ ts, ∃ fs, x = JValue.obj fs) :
    (Orchestrator.execute_jobs_async ctx parsed).2 = none ∧
    (Orchestrator.execute_jobs_async ctx parsed).1.length = 3 * ts.length + 2 ∧
    (Orchestrator.execute_jobs_async ctx parsed).1[0]? =
      some (Act.webhookPost ctx.task_id ctx.context_id "working" 0) ∧
    (∀ j, j < ts.length → ∃ fs, ts[j]? = some (JValue.obj fs) ∧
      (Orchestrator.execute_jobs_async ctx parsed).1[3*j+1]? =
        some (Act.webhookPost (Orchestrator.jobId ctx.task_id j) ctx.context_id "working" 0) ∧
      (Orchestrator.execute_jobs_async ctx parsed).1[3*j+2]? =
        some (Act.agentCall ((jget fs "description").getD (JValue.str ""))
          ((jget fs "assignedAgent").getD (JValue.obj []))) ∧
      (Orchestrator.execute_jobs_async ctx parsed).1[3*j+3]? =
        some (Act.webhookPost (Orchestrator.jobId ctx.task_id j) ctx.context_id "completed" 1)) ∧
    (Orchestrator.execute_jobs_async ctx parsed).1[3*ts.length+1]? =
      some (Act.webhookPost ctx.task_id ctx.context_id "completed" 0) := by
  obtain ⟨hno, hlen, hpos⟩ := jobLoop_spec ctx.task_id ctx.context_id ts 0 hobj
  have hiter : Orchestrator.iterTasks (Orchestrator.tasksValue parsed) = Except.ok ts := by
    rw [htasks]
    rfl
  have heja : Orchestrator.execute_jobs_async ctx parsed =
      (Act.webhookPost ctx.task_id ctx.context_id "working" 0 ::
        ((Orchestrator.jobLoop ctx.task_id ctx.context_id 0 ts).1 ++
          [Act.webhookPost ctx.task_id ctx.context_id "completed" 0]), none) := by
    simp only [Orchestrator.execute_jobs_async, hgate, hiter, hno]
  rw [heja]
  refine ⟨rfl, ?_, by simp, ?_, ?_⟩
  · simp [hlen]
  · intro j hj
    obtain ⟨fs, heq, h0, h1, h2⟩ := hpos j hj
    have hb0 : 3 * j < (Orchestrator.jobLoop ctx.task_id ctx.context_id 0 ts).1.length := by
      rw [hlen]; omega
    have hb1 : 3 * j + 1 < (Orchestrator.jobLoop ctx.task_id ctx.context_id 0 ts).1.length := by
      rw [hlen]; omega
    have hb2 : 3 * j + 2 < (Orchestrator.jobLoop ctx.task_id ctx.context_id 0 ts).1.length := by
      rw [hlen]; omega
    have e2 : 3 * j + 2 = (3 * j + 1) + 1 := by omega
    have e3 : 3 * j + 3 = (3 * j + 2) + 1 := by omega
    refine ⟨fs, heq, ?_, ?_, ?_⟩
    · rw [List.getElem?_cons_succ, List.getElem?_append_left hb0]
      simpa using h0
    · rw [e2, List.getElem?_cons_succ, List.getElem?_append_left hb1]
      simpa using h1
    · rw [e3, List.getElem?_cons_succ, List.getElem?_append_left hb2]
      simpa using h2
  · rw [List.getElem?_cons_succ, List.getElem?_append_right hlen.le, hlen]
    simp

/-- C6 witness: a concrete job-execution request with a valid webhook
configuration and two dict tasks produces the eight actions in order. -/
theorem execute_jobs_sequential_order_witness :
    Orchestrator.webhookGate
        (some ⟨some [("pushNotificationConfig",
          JValue.obj [("url", JValue.str "http://wh"), ("token", JValue.str "tok")])]⟩) =
      Except.ok (some (JValue.str "http://wh", JValue.str "tok")) ∧
    Orchestrator.tasksValue
        (some (JValue.obj [("type", JValue.str "execute_jobs"),
          ("tasks", JValue.arr [JValue.obj [("description", JValue.str "analyze data")],
                                JValue.obj [("description", JValue.str "find trends")]])])) =
      JValue.arr [JValue.obj [("description", JValue.str "analyze data")],
                  JValue.obj [("description", JValue.str "find trends")]] ∧
    (Orchestrator.execute_jobs_async
        ⟨"t1", "c1", some ⟨some [("pushNotificationConfig",
          JValue.obj [("url", JValue.str "http://wh"), ("token", JValue.str "tok")])]⟩⟩
        (some (JValue.obj [("type", JValue.str "execute_jobs"),
          ("tasks", JValue.arr [JValue.obj [("description", JValue.str "analyze data")],
                                JValue.obj [("description", JValue.str "find trends")]])]))).2 =
      none ∧
    (Orchestrator.execute_jobs_async
        ⟨"t1", "c1", some ⟨some [("pushNotificationConfig",
          JValue.obj [("url", JValue.str "http://wh"), ("token", JValue.str "tok")])]⟩⟩
        (some (JValue.obj [("type", JValue.str "execute_jobs"),
          ("tasks", JValue.arr [JValue.obj [("description", JValue.str "analyze data")],
                                JValue.obj [("description", JValue.str "find trends")]])]))).1.length =
      3 * 2 + 2 :=
  ⟨rfl, rfl,
   (execute_jobs_sequential_order
      ⟨"t1", "c1", some ⟨some [("pushNotificationConfig",
        JValue.obj [("url", JValue.str "http://wh"), ("token", JValue.str "tok")])]⟩⟩
      (some (JValue.obj [("type", JValue.str "execute_jobs"),
        ("tasks", JValue.arr [JValue.obj [("description", JValue.str "analyze data")],
                              JValue.obj [("description", JValue.str "find trends")]])]))
      (JValue.str "http://wh") (JValue.str "tok")
      [JValue.obj [("description", JValue.str "analyze data")],
       JValue.obj [("description", JValue.str "find trends")]]
      rfl rfl (by intro x hx; simp at hx; rcases hx with h | h <;> exact ⟨_, h⟩)).1,
   (execute_jobs_sequential_order
      ⟨"t1", "c1", some ⟨some [("pushNotificationConfig",
        JValue.obj [("url", JValue.str "http://wh"), ("token", JValue.str "tok")])]⟩⟩
      (some (JValue.obj [("type", JValue.str "execute_jobs"),
        ("tasks", JValue.arr [JValue.obj [("description", JValue.str "analyze data")],
                              JValue.obj [("description", JValue.str "find trends")]])]))
      (JValue.str "http://wh") (JValue.str "tok")
      [JValue.obj [("description", JValue.str "analyze data")],
       JValue.obj [("description", JValue.str "find trends")]]
      rfl rfl (by intro x hx; simp at hx; rcases hx with h | h <;> exact ⟨_, h⟩)).2.1⟩

/-- C7 counterexample: the web-project template generator is not a pure
function of the user message - it reads and advances the executor's job and
agent counters, so two successive calls with the identical message return
different job lists (the generated `job-<n>`/`agent-<n>` ids move on). -/
theorem create_web_project_jobs_not_pure :
    (TaskAgentExecutor.create_web_project_jobs ⟨0, 0⟩ "build a website").1 ≠
      (TaskAgentExecutor.create_web_project_jobs
        ((TaskAgentExecutor.create_web_project_jobs ⟨0, 0⟩ "build a website").2)
        "build a website").1 := by decide

/-- C7 (amended): the template generator is a deterministic function of the
user message and the counter state; every field except the generated
`job-<n>`/`agent-<n>` ids depends only on the message (erasing the id fields
makes the output state-independent), while each call advances both counters
by four and stamps the ids `job_counter+1 .. job_counter+4`. -/
theorem create_web_project_jobs_state_dependence (user_message : String)
    (s s2 : TaskAgentExecutor.ExecState) :
    ((TaskAgentExecutor.create_web_project_jobs s user_message).1.map TaskAgentExecutor.eraseIds =
       (TaskAgentExecutor.create_web_project_jobs s2 user_message).1.map TaskAgentExecutor.eraseIds) ∧
    ((TaskAgentExecutor.create_web_project_jobs s user_message).2 =
       ⟨s.job_counter + 4, s.agent_counter + 4⟩) ∧
    ((TaskAgentExecutor.create_web_project_jobs s user_message).1.map TaskAgentExecutor.JobSpec.id =
       ["job-" ++ toString (s.job_counter + 1), "job-" ++ toString (s.job_counter + 2),
        "job-" ++ toString (s.job_counter + 3), "job-" ++ toString (s.job_counter + 4)]) := by
  refine ⟨rfl, rfl, rfl⟩

/-- C8: without an OpenAI API key the no-client branch of
`_generate_jobs_with_openai` calls `self._generate_jobs_fallback`, a name
defined nowhere on the `Orchestrator` class, so Python raises
`AttributeError` and every task-generation request ends in `failed` status
events - the advertised rule-based fallback never produces tasks. -/
theorem no_fallback_attribute_error (ctx : RequestContext) (parsed : Option JValue)
    (oo : Except PyError (List JValue))
    (hmode : Orchestrator.executeMode parsed = Orchestrator.ExecMode.taskGeneration) :
    "_generate_jobs_fallback" ∉ Orchestrator.classAttrs ∧
    Orchestrator.generate_jobs_with_openai false oo =
      Except.error (PyError.attributeError "_generate_jobs_fallback") ∧
    (Orchestrator.execute ctx parsed false oo).events ≠ [] ∧
    (∀ ev ∈ (Orchestrator.execute ctx parsed false oo).events,
       ev = Event.statusUpdate ctx.task_id ctx.context_id "failed" true) := by
  refine ⟨by decide, rfl, ?_, ?_⟩ <;>
    cases hb : Orchestrator.is_blocking_request ctx.message <;>
      simp [Orchestrator.execute, hmode, hb, Orchestrator.generate_jobs_with_openai]

/-- C8 witness: a concrete task-generation request against a client-less
Orchestrator produces only failed status events. -/
theorem no_fallback_attribute_error_witness :
    Orchestrator.executeMode none = Orchestrator.ExecMode.taskGeneration ∧
    "_generate_jobs_fallback" ∉ Orchestrator.classAttrs ∧
    (Orchestrator.execute ⟨"t1", "c1", none⟩ none false (Except.ok [])).events ≠ [] :=
  ⟨rfl, (no_fallback_attribute_error ⟨"t1", "c1", none⟩ none (Except.ok []) rfl).1,
   (no_fallback_attribute_error ⟨"t1", "c1", none⟩ none (Except.ok []) rfl).2.2.1⟩

/-- C9: a task description containing a market keyword and no trending
keyword routes to `"market_analysis"`, which is missing from
`available_agents`; the task performs no remote agent call (the result does
not depend on the network at all) and its result is the literal
unavailability string, while the job loop still produces the job's
`completed` webhook around the dispatch. -/
theorem market_routing_unavailable (task_description : String) (assigned_agent : JValue)
    (a2aResult a2aResult2 : String → String → String)
    (hm : containsAny (pyLower task_description) Orchestrator.marketKeywords = true)
    (ht : containsAny (pyLower task_description) Orchestrator.trendingKeywords = false) :
    Orchestrator.determine_best_agent task_description assigned_agent = "market_analysis" ∧
    Orchestrator.available_agents.lookup "market_analysis" = none ∧
    Orchestrator.execute_task_with_agent a2aResult task_description assigned_agent =
      "Agent market_analysis not available. Task description: " ++ task_description ∧
    Orchestrator.execute_task_with_agent a2aResult task_description assigned_agent =
      Orchestrator.execute_task_with_agent a2aResult2 task_description assigned_agent ∧
    (∀ tid cid, Orchestrator.jobLoop tid cid 0
        [JValue.obj [("description", JValue.str task_description)]] =
      ([Act.webhookPost (Orchestrator.jobId tid 0) cid "working" 0,
        Act.agentCall (JValue.str task_description) (JValue.obj []),
        Act.webhookPost (Orchestrator.jobId tid 0) cid "completed" 1], none)) := by
  have hd : Orchestrator.determine_best_agent task_description assigned_agent =
      "market_analysis" := by
    simp [Orchestrator.determine_best_agent, hm, ht]
  have hl : Orchestrator.available_agents.lookup "market_analysis" = none := by decide
  have he : Orchestrator.execute_task_with_agent a2aResult task_description assigned_agent =
      "Agent market_analysis not available. Task description: " ++ task_description := by
    simp [Orchestrator.execute_task_with_agent, hd, hl]
  have he2 : Orchestrator.execute_task_with_agent a2aResult2 task_description assigned_agent =
      "Agent market_analysis not available. Task description: " ++ task_description := by
    simp [Orchestrator.execute_task_with_agent, hd, hl]
  exact ⟨hd, hl, he, he.trans he2.symm, fun tid cid => rfl⟩

/-- C9 witness: the theorem applied to the concrete description
"Research stock market conditions". -/
theorem market_routing_unavailable_witness :
    containsAny (pyLower "Research stock market conditions")
      Orchestrator.marketKeywords = true ∧
    containsAny (pyLower "Research stock market conditions")
      Orchestrator.trendingKeywords = false ∧
    Orchestrator.execute_task_with_agent (fun _ _ => "remote answer")
        "Research stock market conditions" (JValue.obj []) =
      "Agent market_analysis not available. Task description: Research stock market conditions" :=
  ⟨by decide, by decide,
   (market_routing_unavailable "Research stock market conditions" (JValue.obj [])
      (fun _ _ => "remote answer") (fun _ _ => "other") (by decide) (by decide)).2.2.1⟩

/-- C10: a job-execution request whose message has no pushNotificationConfig
(or no truthy url/token) makes `_execute_jobs_async` return early - no task
runs and no webhook is sent - yet `execute` still enqueues a final
`completed` status event, telling the A2A client the job execution finished. -/
theorem missing_webhook_config_reports_completed (ctx : RequestContext)
    (parsed : Option JValue) (hasClient : Bool) (oo : Except PyError (List JValue))
    (hjob : Orchestrator.executeMode parsed = Orchestrator.ExecMode.jobExecution)
    (hgate : Orchestrator.webhookGate ctx.message = Except.ok none) :
    Orchestrator.execute_jobs_async ctx parsed = ([], none) ∧
    (Orchestrator.execute ctx parsed hasClient oo).events =
      [Event.statusUpdate ctx.task_id ctx.context_id "completed" true] ∧
    (Orchestrator.execute ctx parsed hasClient oo).actions = [] := by
  have h1 : Orchestrator.execute_jobs_async ctx parsed = ([], none) := by
    simp [Orchestrator.execute_jobs_async, hgate]
  refine ⟨h1, ?_, ?_⟩ <;> simp [Orchestrator.execute, hjob, h1]

/-- C10 witness: a concrete job-execution request without any message
configuration runs nothing but is reported completed. -/
theorem missing_webhook_config_reports_completed_witness :
    Orchestrator.executeMode (some (JValue.obj [("type", JValue.str "execute_jobs")])) =
      Orchestrator.ExecMode.jobExecution ∧
    Orchestrator.webhookGate (none : Option Message) = Except.ok none ∧
    (Orchestrator.execute ⟨"t1", "c1", none⟩
        (some (JValue.obj [("type", JValue.str "execute_jobs")])) true (Except.ok [])).events =
      [Event.statusUpdate "t1" "c1" "completed" true] :=
  ⟨rfl, rfl,
   (missing_webhook_config_reports_completed ⟨"t1", "c1", none⟩
      (some (JValue.obj [("type", JValue.str "execute_jobs")])) true (Except.ok [])
      rfl rfl).2.1⟩
